import Mathlib

/-!
Shallow embedding of the speech-to-text proxy (Vercel API handlers).

Source files modelled here:
* `api/speech-to-text.js` (large-file capable handler): `handler` (direct path),
  `validateInput`, `buildSpeechRequest`, `pollLongRunningOperation`,
  `processAudioChunk`.
* `speech-to-text.js` (bundle of the older handlers): the first handler (API-key
  based, "old handler"), and the service-account handler with its own
  `validateInput` / `buildSpeechRequest` (textually identical to the api/ ones).
* `process-large-audio.js` (src/unnamed/part_001): `pollOperation`.
* `process-audio-chunk.js` (src/unnamed/part_001): `handler`, `validateChunkInput`,
  `buildChunkSpeechRequest`, the transcript/confidence aggregation.
* `cleanup-files.js` / `process-drive-audio.js` (src/unnamed/part_000):
  `cleanupHandler`, `cleanupTempFile`.

Modelling conventions:
* JavaScript strings are `String`, numbers are `ℤ` (or `ℚ` where the code
  divides), absent JSON fields are `Option`.
* JS truthiness on strings (`!s`) is emptiness, on numbers it is `≠ 0`;
  `x || d` on an optional number is `jsOrI`.
* Network collaborators (auth client, Speech API, Cloud Storage, Drive) are
  oracles passed in as explicit arguments; each handler returns the sequence of
  collaborator kinds it contacted together with the JSON response it sends.
  Transport-level exceptions of the outer try/catch (which produce generic 500
  responses) are outside the modelled oracles.
* Caller-supplied configuration fields that are not part of the provider schema
  are modelled collectively by the `extras` association list; the JS spread
  `...config` copies them into the payload, an allow-list builder does not.
-/

set_option autoImplicit false

namespace STT

/-- Truthiness of an optional JS string: present and non-empty. -/
def strTruthy : Option String → Bool
  | some s => s.length != 0
  | none => false

/-- Truthiness of an optional JS number: present and non-zero. -/
def numTruthy : Option ℤ → Bool
  | some x => x != 0
  | none => false

/-- JS `x || d` for an optional number `x`: `d` when `x` is absent or `0`. -/
def jsOrI (v : Option ℤ) (dflt : ℤ) : ℤ :=
  match v with
  | some x => if x = 0 then dflt else x
  | none => dflt

/-- JS `s || d` for an optional string `s`: `d` when `s` is absent or empty. -/
def jsOrS (v : Option String) (dflt : String) : String :=
  match v with
  | some s => if s.length = 0 then dflt else s
  | none => dflt

/-- One recognition alternative (`results[i].alternatives[j]`). -/
structure SpeechAlternative where
  transcript : String
  confidence : ℚ
deriving DecidableEq

instance : Inhabited SpeechAlternative := ⟨{ transcript := "", confidence := 0 }⟩

/-- One recognition result (`results[i]`); the code reads `alternatives[0]`. -/
structure SpeechResult where
  alternatives : List SpeechAlternative
deriving DecidableEq

/-- Body of a successful Speech API JSON response. -/
structure SpeechData where
  results : Option (List SpeechResult)
  totalBilledTime : Option String
deriving DecidableEq

/-- Outcome of a `fetch` to the recognition endpoint, as seen by the handler:
either an HTTP-ok JSON body, or a non-ok status with `error.message`. -/
inductive ProviderReply where
  | ok (data : SpeechData)
  | httpError (status : ℕ) (message : Option String)
deriving DecidableEq

/-- Caller-supplied `config.diarizationConfig` object. -/
structure CallerDiarization where
  enableSpeakerDiarization : Bool := false
  minSpeakerCount : Option ℤ := none
  maxSpeakerCount : Option ℤ := none
deriving DecidableEq

/-- Caller-supplied `config` object of a transcription request. Fields the
provider schema does not know are modelled by the `extras` list. -/
structure RecognitionConfig where
  encoding : Option String := none
  sampleRateHertz : Option ℤ := none
  languageCode : Option String := none
  model : Option String := none
  diarizationConfig : Option CallerDiarization := none
  enableDiarization : Bool := false
  audioChannelCount : Option ℤ := none
  enableSeparateRecognitionPerChannel : Option Bool := none
  extras : List (String × String) := []
deriving DecidableEq

/-- Sanitized `diarizationConfig` object of the provider payload. -/
structure DiarizationPayload where
  enableSpeakerDiarization : Bool
  minSpeakerCount : ℤ
  maxSpeakerCount : ℤ
deriving DecidableEq

/-- The `config` object of the provider payload built by the request builders. -/
structure ProviderRequestConfig where
  encoding : Option String := none
  sampleRateHertz : ℤ := 16000
  languageCode : Option String := none
  model : String := "latest_long"
  useEnhanced : Bool := true
  enableAutomaticPunctuation : Bool := true
  enableWordTimeOffsets : Bool := true
  enableWordConfidence : Option Bool := none
  maxAlternatives : ℤ := 1
  profanityFilter : Option Bool := none
  audioChannelCount : Option ℤ := none
  enableSeparateRecognitionPerChannel : Option Bool := none
  diarizationConfig : Option DiarizationPayload := none
  extras : List (String × String) := []
deriving DecidableEq

/-- Provider request: `config` plus inline `audio.content`. -/
structure ProviderRequest where
  config : ProviderRequestConfig
  audioContent : String
deriving DecidableEq

/-- `buildSpeechRequest` of `api/speech-to-text.js` (identical in the
service-account handler of `speech-to-text.js`). The object literal sets the
documented defaults and then spreads `...config` over them, so every
caller-supplied key — including keys outside the provider schema (`extras`) —
overrides or extends the payload; afterwards a caller-supplied
`diarizationConfig` is replaced by the sanitized object with defaults 2/6. -/
def buildSpeechRequest (audioData : String) (config : RecognitionConfig) : ProviderRequest :=
  { config :=
      { encoding := config.encoding
        sampleRateHertz := config.sampleRateHertz.getD 16000
        languageCode := config.languageCode
        model := config.model.getD "latest_long"
        useEnhanced := true
        enableAutomaticPunctuation := true
        enableWordTimeOffsets := true
        enableWordConfidence := none
        maxAlternatives := 1
        profanityFilter := none
        audioChannelCount := config.audioChannelCount
        enableSeparateRecognitionPerChannel := config.enableSeparateRecognitionPerChannel
        diarizationConfig := config.diarizationConfig.map (fun d =>
          { enableSpeakerDiarization := true
            minSpeakerCount := jsOrI d.minSpeakerCount 2
            maxSpeakerCount := jsOrI d.maxSpeakerCount 6 })
        extras := config.extras }
    audioContent := audioData }

/-- `buildChunkSpeechRequest` of `process-audio-chunk.js`: no spread — only the
explicitly copied fields (`audioChannelCount`,
`enableSeparateRecognitionPerChannel`, and the tightened diarization object when
`config.enableDiarization === true`) come from the caller; `extras` never do. -/
def buildChunkSpeechRequest (audioData : String) (config : RecognitionConfig) : ProviderRequest :=
  { config :=
      { encoding := config.encoding
        sampleRateHertz := jsOrI config.sampleRateHertz 16000
        languageCode := config.languageCode
        model := "latest_short"
        useEnhanced := true
        enableAutomaticPunctuation := true
        enableWordTimeOffsets := true
        enableWordConfidence := some true
        maxAlternatives := 1
        profanityFilter := some false
        audioChannelCount := if numTruthy config.audioChannelCount then config.audioChannelCount else none
        enableSeparateRecognitionPerChannel :=
          if config.enableSeparateRecognitionPerChannel = some true then some true else none
        diarizationConfig :=
          if config.enableDiarization = true then
            some { enableSpeakerDiarization := true, minSpeakerCount := 1, maxSpeakerCount := 2 }
          else none
        extras := [] }
    audioContent := audioData }

/-- The chunk request the api handler's `processAudioChunk`
(`api/speech-to-text.js`, lines 306–317) builds inline. Its object literal
contains only `encoding`, `sampleRateHertz`, `languageCode`,
`model: 'latest_short'` and `enableAutomaticPunctuation: true`: it never sets
`enableWordConfidence` and never emits a `diarizationConfig`, even when the
caller enables diarization. The absent boolean flags `useEnhanced` and
`enableWordTimeOffsets` are false for the provider; `maxAlternatives` is absent
and left at the provider default 1. -/
def processAudioChunkRequest (audioData : String) (config : RecognitionConfig) : ProviderRequest :=
  { config :=
      { encoding := some (jsOrS config.encoding "MP3")
        sampleRateHertz := jsOrI config.sampleRateHertz 16000
        languageCode := some (jsOrS config.languageCode "ja-JP")
        model := "latest_short"
        useEnhanced := false
        enableAutomaticPunctuation := true
        enableWordTimeOffsets := false
        enableWordConfidence := none
        maxAlternatives := 1
        profanityFilter := none
        audioChannelCount := none
        enableSeparateRecognitionPerChannel := none
        diarizationConfig := none
        extras := [] }
    audioContent := audioData }

/-- Result of the validation functions: `valid` plus collected error strings. -/
structure ValidationResult where
  valid : Bool
  errors : List String
deriving DecidableEq

/-- `validateInput` of `api/speech-to-text.js` (identical in the service-account
handler): presence of `audioData`, `config`, `config.languageCode`,
`config.encoding`; nothing else. -/
def validateInput (audioData : Option String) (config : Option RecognitionConfig) : ValidationResult :=
  let errors :=
    (if strTruthy audioData then [] else ["audioData is required and must be a base64 string"]) ++
    (match config with
     | none => ["config is required and must be an object"]
     | some c =>
       (if strTruthy c.languageCode then [] else ["config.languageCode is required"]) ++
       (if strTruthy c.encoding then [] else ["config.encoding is required"]))
  { valid := errors.isEmpty, errors := errors }

/-- The `supportedEncodings` list of `validateChunkInput`. -/
def supportedEncodings : List String :=
  ["MP3", "LINEAR16", "FLAC", "MULAW", "AMR", "AMR_WB", "OGG_OPUS",
   "SPEEX_WITH_HEADER_BYTE", "WEBM_OPUS"]

/-- `validateChunkInput` of `process-audio-chunk.js`: presence of `audioData`,
`chunkIndex`, `config`, `config.languageCode`, `config.encoding`; membership of
a truthy encoding in `supportedEncodings`; range check of a truthy
`sampleRateHertz`. No check reads the diarization fields. -/
def validateChunkInput (audioData : Option String) (chunkIndex : Option ℤ)
    (config : Option RecognitionConfig) : ValidationResult :=
  let errors :=
    (if strTruthy audioData then [] else ["audioData is required and must be a base64 string"]) ++
    (if chunkIndex.isSome then [] else ["chunkIndex is required and must be a number"]) ++
    (match config with
     | none => ["config is required and must be an object"]
     | some c =>
       (if strTruthy c.languageCode then [] else ["config.languageCode is required"]) ++
       (if strTruthy c.encoding then [] else ["config.encoding is required"]) ++
       (if strTruthy c.encoding ∧ c.encoding.getD "" ∉ supportedEncodings then
          ["Unsupported encoding: " ++ c.encoding.getD ""] else []) ++
       (match c.sampleRateHertz with
        | some rate =>
          if rate ≠ 0 ∧ (rate < 8000 ∨ rate > 48000) then
            ["sampleRateHertz must be between 8000 and 48000"]
          else []
        | none => []))
  { valid := errors.isEmpty, errors := errors }

/-- Base64 size estimate of the handlers:
`audioSizeInMB = (audioData.length * 3) / 4 / 1024 / 1024`. -/
def audioSizeInMB (encodedLength : ℕ) : ℚ :=
  (encodedLength * 3 : ℚ) / 4 / 1024 / 1024

/-- External collaborators a handler can contact. -/
inductive Collab where
  | credential
  | recognition
  | storage
deriving DecidableEq

/-- JSON response a handler sends; unsent fields stay at their `none`/default. -/
structure HttpResponse where
  status : ℕ := 200
  success : Option Bool := none
  error : Option String := none
  message : Option String := none
  details : List String := []
  results : Option (List SpeechResult) := none
  maxSize : Option String := none
  suggestion : Option String := none
  transcript : Option String := none
  confidence : Option ℚ := none
  processingMode : Option String := none
  totalBilledTime : Option String := none
deriving DecidableEq

/-- The emptiness test `!speechData.results || speechData.results.length === 0`. -/
def isEmptyResults : Option (List SpeechResult) → Bool
  | none => true
  | some [] => true
  | some (_ :: _) => false

/-- Transcript aggregation of `process-audio-chunk.js`:
`results.map(r => r.alternatives[0].transcript).join(' ')`, `''` when empty. -/
def chunkTranscript (results : Option (List SpeechResult)) : String :=
  match results with
  | some (r :: rs) =>
    String.intercalate " " ((r :: rs).map (fun x => x.alternatives.headI.transcript))
  | _ => ""

/-- Confidence aggregation of `process-audio-chunk.js`:
`results.reduce((sum, r) => sum + (r.alternatives[0].confidence || 0), 0) / results.length`,
`0` when there are no results. (`c || 0` is the identity on a rational `c`.) -/
def chunkConfidence (results : Option (List SpeechResult)) : ℚ :=
  match results with
  | some rs =>
    if rs.length > 0 then
      (rs.foldl (fun sum r => sum + r.alternatives.headI.confidence) 0) / rs.length
    else 0
  | none => 0

/-- Confidence reported by `processAudioChunk` of `api/speech-to-text.js`:
`data.results && data.results[0] ? data.results[0].alternatives[0].confidence : 0` —
the first result only, not an average. -/
def apiChunkConfidence (results : Option (List SpeechResult)) : ℚ :=
  match results with
  | some (r :: _) => r.alternatives.headI.confidence
  | _ => 0

/-- Modelled from the spec: the arithmetic mean of the top alternative's
confidence over all recognition results of a chunk, the formula the spec's
ChunkResult description prescribes. Compared against `chunkConfidence` and
`apiChunkConfidence`. -/
def meanTopConfidence (rs : List SpeechResult) : ℚ :=
  (rs.map (fun r => r.alternatives.headI.confidence)).sum / rs.length

/-- Direct-processing path of the `api/speech-to-text.js` handler (the branch
taken when `processingMode` selects neither cloud-storage nor chunk mode).
Token acquisition (lines 63–64) happens before validation, so the credential
collaborator is contacted even for invalid bodies. Returns the collaborator
trace and the JSON response. The recognition call sends
`buildSpeechRequest audioData config`. -/
def apiDirectHandler (audioData : Option String) (config : Option RecognitionConfig)
    (provider : ProviderReply) : List Collab × HttpResponse :=
  let v := validateInput audioData config
  if v.valid = false then
    ([Collab.credential], { status := 400, error := some "Invalid input", details := v.errors })
  else
    let a := audioData.getD ""
    if audioSizeInMB a.length > 1000 then
      ([Collab.credential],
       { status := 413, error := some "Audio file too large for direct processing",
         maxSize := some "1000MB", suggestion := some "Use large file processing mode" })
    else
      match provider with
      | ProviderReply.httpError st msg =>
        ([Collab.credential, Collab.recognition],
         { status := st, error := some "Speech API Error", message := some (jsOrS msg "Unknown error") })
      | ProviderReply.ok data =>
        if isEmptyResults data.results then
          ([Collab.credential, Collab.recognition],
           { status := 200, success := some true, results := some [],
             message := some "No speech detected in audio", processingMode := some "direct" })
        else
          ([Collab.credential, Collab.recognition],
           { status := 200, success := some true, results := data.results,
             totalBilledTime := data.totalBilledTime, processingMode := some "direct" })

/-- The service-account handler of `speech-to-text.js` (same shape as the api/
handler, but a 15 MB limit, no `suggestion` field in the 413 response and no
`processingMode` field). Token acquisition again precedes validation. -/
def saDirectHandler (audioData : Option String) (config : Option RecognitionConfig)
    (provider : ProviderReply) : List Collab × HttpResponse :=
  let v := validateInput audioData config
  if v.valid = false then
    ([Collab.credential], { status := 400, error := some "Invalid input", details := v.errors })
  else
    let a := audioData.getD ""
    if audioSizeInMB a.length > 15 then
      ([Collab.credential],
       { status := 413, error := some "Audio file too large", maxSize := some "15MB" })
    else
      match provider with
      | ProviderReply.httpError st msg =>
        ([Collab.credential, Collab.recognition],
         { status := st, error := some "Speech API Error", message := some (jsOrS msg "Unknown error") })
      | ProviderReply.ok data =>
        if isEmptyResults data.results then
          ([Collab.credential, Collab.recognition],
           { status := 200, success := some true, results := some [],
             message := some "No speech detected in audio" })
        else
          ([Collab.credential, Collab.recognition],
           { status := 200, success := some true, results := data.results,
             totalBilledTime := data.totalBilledTime })

/-- The first (API-key based) handler of `speech-to-text.js`, the "old handler":
no size check, `!audioData || !config || !apiKey` validation, and a 400 error
response when the provider returns zero results. -/
def oldDirectHandler (audioData : Option String) (config : Option RecognitionConfig)
    (apiKey : Option String) (provider : ProviderReply) : HttpResponse :=
  if !strTruthy audioData || config.isNone || !strTruthy apiKey then
    { status := 400, error := some "Missing required parameters: audioData, config, apiKey" }
  else
    match provider with
    | ProviderReply.httpError st msg =>
      { status := st, error := some ("Speech API Error: " ++ jsOrS msg "Unknown error") }
    | ProviderReply.ok data =>
      if isEmptyResults data.results then
        { status := 400, error := some "音声からテキストを抽出できませんでした" }
      else
        { status := 200, success := some true, results := data.results,
          totalBilledTime := data.totalBilledTime }

/-- The `process-audio-chunk.js` handler: validation and the 50 MB chunk size
check happen before any collaborator call; only then are the credential provider
and the recognition provider contacted. The success response carries the joined
transcript and the averaged confidence (`wordDetails`, `duration`, `wordCount`
and the ids are start-time bookkeeping omitted here). The recognition call
sends `buildChunkSpeechRequest audioData config`. -/
def chunkHandler (audioData : Option String) (chunkIndex : Option ℤ)
    (config : Option RecognitionConfig) (provider : ProviderReply) : List Collab × HttpResponse :=
  let v := validateChunkInput audioData chunkIndex config
  if v.valid = false then
    ([], { status := 400, error := some "Invalid input", details := v.errors })
  else
    let a := audioData.getD ""
    if audioSizeInMB a.length > 50 then
      ([], { status := 413, error := some "Audio chunk too large", maxSize := some "50MB" })
    else
      match provider with
      | ProviderReply.httpError st msg =>
        ([Collab.credential, Collab.recognition],
         { status := st, success := some false, error := some "Speech API Error",
           message := some (jsOrS msg "Unknown error") })
      | ProviderReply.ok data =>
        ([Collab.credential, Collab.recognition],
         { status := 200, success := some true,
           transcript := some (chunkTranscript data.results),
           confidence := some (chunkConfidence data.results),
           processingMode := some "chunk" })

/-- One polled status of the long-running operation, as seen by the loop body:
a transient fetch/parse failure (the thrown error's message), a still-running
status, a terminal success (`data.response`), or a terminal provider error. -/
inductive PollResp where
  | fail (msg : String)
  | running
  | doneOk (payload : Option (List SpeechResult))
  | doneErr (msg : String)
deriving DecidableEq

/-- Outcome of the polling loop. -/
inductive PollOutcome where
  | ok (payload : Option (List SpeechResult))
  | err (msg : String)
  | timeout (msg : String)
deriving DecidableEq

/-- The normal wait between polls: `setTimeout(..., 5000)`. -/
def pollIntervalMs : ℕ := 5000

/-- The wait after a transient failure: `setTimeout(..., 10000)`. -/
def transientBackoffMs : ℕ := 10000

/-- `maxAttempts` default of `pollLongRunningOperation` (`api/speech-to-text.js`). -/
def lroMaxAttempts : ℕ := 120

/-- `maxAttempts` default of `pollOperation` (`process-large-audio.js`). -/
def chunkPollMaxAttempts : ℕ := 60

/-- The polling loop shared by `pollLongRunningOperation` and `pollOperation`:
`attempt` is the loop counter, the `fuel` is the number of attempts left.
Per attempt: a done-without-error status returns its payload; a done-with-error
status throws inside the `try`, so it is caught and — like a transient fetch
failure — rethrown on the final attempt and otherwise retried after the longer
back-off; a running status sleeps the poll interval; an exhausted loop throws
the timeout error. Also returns the list of sleeps performed, in order. -/
def pollAux (resps : ℕ → PollResp) (timeoutMsg : String) : ℕ → ℕ → PollOutcome × List ℕ
  | _, 0 => (PollOutcome.timeout timeoutMsg, [])
  | attempt, fuel + 1 =>
    match resps attempt with
    | PollResp.doneOk payload => (PollOutcome.ok payload, [])
    | PollResp.doneErr m =>
      if fuel = 0 then (PollOutcome.err ("Operation error: " ++ m), [])
      else
        let rest := pollAux resps timeoutMsg (attempt + 1) fuel
        (rest.1, transientBackoffMs :: rest.2)
    | PollResp.fail m =>
      if fuel = 0 then (PollOutcome.err m, [])
      else
        let rest := pollAux resps timeoutMsg (attempt + 1) fuel
        (rest.1, transientBackoffMs :: rest.2)
    | PollResp.running =>
      let rest := pollAux resps timeoutMsg (attempt + 1) fuel
      (rest.1, pollIntervalMs :: rest.2)

/-- `pollLongRunningOperation(operationName, accessToken, maxAttempts = 120)` of
`api/speech-to-text.js`, with the statuses the successive fetches would see
passed as an oracle. -/
def pollLongRunningOperation (resps : ℕ → PollResp) : PollOutcome × List ℕ :=
  pollAux resps "Long running operation timeout (10 minutes)" 0 lroMaxAttempts

/-- `pollOperation(operationName, accessToken, maxAttempts = 60)` of
`process-large-audio.js`. -/
def pollOperation (resps : ℕ → PollResp) : PollOutcome × List ℕ :=
  pollAux resps "Operation timeout" 0 chunkPollMaxAttempts

/-- A polled status that is not terminal-successful: a transient fetch failure
or a still-running report. -/
def transientOrRunning (p : PollResp) : Prop :=
  p = PollResp.running ∨ ∃ m, p = PollResp.fail m

/-- The sleep the loop performs after a given non-terminal status. -/
def pollWait : PollResp → ℕ
  | PollResp.fail _ => transientBackoffMs
  | PollResp.doneErr _ => transientBackoffMs
  | _ => pollIntervalMs

/-- Per-object Cloud Storage deletion loop of `cleanupHandler`
(`cleanup-files.js`): each failing delete contributes one entry to the error
list, each succeeding delete one entry to the deleted list; no failure escapes
the per-object `try`/`catch`. The oracle returns `none` on success and the
thrown error's message on failure. -/
def cleanupCloudLoop (del : String → Option String) (names : List String) :
    List String × List String :=
  names.foldl (fun acc n =>
    match del n with
    | none => (acc.1 ++ [n], acc.2)
    | some m => (acc.1, acc.2 ++ ["Failed to delete " ++ n ++ ": " ++ m])) ([], [])

/-- Per-file Drive deletion loop of `cleanupHandler`; same catch discipline. -/
def cleanupDriveLoop (del : String → Option String) (ids : List String) :
    List String × List String :=
  ids.foldl (fun acc i =>
    match del i with
    | none => (acc.1 ++ [i], acc.2)
    | some m => (acc.1, acc.2 ++ ["Failed to delete drive file " ++ i ++ ": " ++ m])) ([], [])

/-- The `results` object of the cleanup response. -/
structure CleanupReport where
  deletedCloudStorage : List String
  deletedDrive : List String
  errors : List String
deriving DecidableEq

/-- `cleanupHandler` of `cleanup-files.js` after authentication: processes both
deletion lists and always answers status 200 with `success: true`, reporting
per-object failures only inside `results.errors`. -/
def cleanupHandler (objectNames driveFileIds : Option (List String))
    (storageDelete driveDelete : String → Option String) : ℕ × Bool × CleanupReport :=
  let cloud := cleanupCloudLoop storageDelete (objectNames.getD [])
  let drive := cleanupDriveLoop driveDelete (driveFileIds.getD [])
  (200, true,
   { deletedCloudStorage := cloud.1, deletedDrive := drive.1, errors := cloud.2 ++ drive.2 })

/-- `cleanupTempFile` of `process-drive-audio.js`: the delete call may throw
(`Except.error`), but the surrounding `try`/`catch` only logs a warning, so the
function itself always completes normally. -/
def cleanupTempFile (deleteOutcome : Except String Unit) : Except String Unit :=
  match deleteOutcome with
  | Except.ok _ => Except.ok ()
  | Except.error _ => Except.ok ()

/-- The conditions `validateChunkInput` actually imposes on the `config` object. -/
def chunkConfigOk (c : RecognitionConfig) : Prop :=
  strTruthy c.languageCode = true ∧ strTruthy c.encoding = true ∧
  c.encoding.getD "" ∈ supportedEncodings ∧
  ∀ rate, c.sampleRateHertz = some rate → rate ≠ 0 → 8000 ≤ rate ∧ rate ≤ 48000

/-- A minimal config every validator accepts. -/
def validSmallConfig : RecognitionConfig :=
  { encoding := some "MP3", languageCode := some "ja-JP" }

/-- A config whose only invalid field is the sample rate (7000 Hz). -/
def rateBadConfig : RecognitionConfig :=
  { encoding := some "MP3", languageCode := some "ja-JP", sampleRateHertz := some 7000 }

/-- A config with diarization requested and min speaker count 5 above max 2. -/
def diarBadConfig : RecognitionConfig :=
  { encoding := some "MP3", languageCode := some "ja-JP", sampleRateHertz := some 16000,
    enableDiarization := true,
    diarizationConfig :=
      some { enableSpeakerDiarization := true, minSpeakerCount := some 5,
             maxSpeakerCount := some 2 } }

/-- A provider response with two results whose top confidences are 0.4 and 0.8. -/
def twoChunkResults : List SpeechResult :=
  [{ alternatives := [{ transcript := "hello", confidence := 2/5 }] },
   { alternatives := [{ transcript := "world", confidence := 4/5 }] }]

/-- A base64 payload of 20971521 characters, whose decoded-size estimate is just
above 15 MB. -/
def oversizedAudio : String := String.mk (List.replicate 20971521 'A')

/-- An empty provider response body. -/
def emptySpeechData : SpeechData := { results := none, totalBilledTime := none }

/-- Poll statuses: two transient failures, then a successful terminal status. -/
def recoverResps : ℕ → PollResp :=
  fun i => if i < 2 then PollResp.fail "ECONNRESET" else PollResp.doneOk none

/-- Poll statuses: every fetch fails transiently. -/
def persistentFailResps : ℕ → PollResp := fun _ => PollResp.fail "ECONNRESET"

/-! ### Helper lemmas -/

theorem list_isEmpty_append {α : Type} (xs ys : List α) :
    (xs ++ ys).isEmpty = (xs.isEmpty && ys.isEmpty) := by
  cases xs <;> simp [List.isEmpty]

theorem validateInput_valid_iff (a : Option String) (c : RecognitionConfig) :
    (validateInput a (some c)).valid = true ↔
      (strTruthy a = true ∧ strTruthy c.languageCode = true ∧ strTruthy c.encoding = true) := by
  cases h1 : strTruthy a <;> cases h2 : strTruthy c.languageCode <;>
    cases h3 : strTruthy c.encoding <;> simp [validateInput, h1, h2, h3]

theorem validateChunkInput_valid_iff (a : Option String) (i : Option ℤ) (c : RecognitionConfig) :
    (validateChunkInput a i (some c)).valid = true ↔
      (strTruthy a = true ∧ i.isSome = true ∧ chunkConfigOk c) := by
  by_cases h5 : c.encoding.getD "" ∈ supportedEncodings <;>
    cases h1 : strTruthy a <;> cases h2 : i.isSome <;> cases h3 : strTruthy c.languageCode <;>
    cases h4 : strTruthy c.encoding <;> rcases h6 : c.sampleRateHertz with _ | rate <;>
    simp [validateChunkInput, chunkConfigOk, h1, h2, h3, h4, h5, h6]

theorem validateChunkInput_ignores_diarization (a : Option String) (i : Option ℤ)
    (c : RecognitionConfig) (d : Option CallerDiarization) (b : Bool) :
    validateChunkInput a i (some { c with diarizationConfig := d, enableDiarization := b }) =
      validateChunkInput a i (some c) := rfl

theorem validateChunkInput_rate_only (a : Option String) (i : Option ℤ)
    (c : RecognitionConfig) (rate : ℤ)
    (h1 : strTruthy a = true) (h2 : i.isSome = true)
    (h3 : strTruthy c.languageCode = true) (h4 : strTruthy c.encoding = true)
    (h5 : c.encoding.getD "" ∈ supportedEncodings)
    (h6 : c.sampleRateHertz = some rate) (h7 : rate ≠ 0)
    (h8 : rate < 8000 ∨ rate > 48000) :
    (validateChunkInput a i (some c)).errors =
      ["sampleRateHertz must be between 8000 and 48000"] ∧
    (validateChunkInput a i (some c)).valid = false := by
  have h9 : rate ≠ 0 ∧ (rate < 8000 ∨ rate > 48000) := ⟨h7, h8⟩
  constructor <;> simp [validateChunkInput, h1, h2, h3, h4, h5, h6, h9]

theorem foldl_add_map_sum (f : SpeechResult → ℚ) :
    ∀ (rs : List SpeechResult) (a : ℚ),
      rs.foldl (fun s r => s + f r) a = a + (rs.map f).sum := by
  intro rs
  induction rs with
  | nil => intro a; simp
  | cons r t ih => intro a; simp [ih, add_assoc]

theorem pollAux_step (resps : ℕ → PollResp) (tmsg : String) (attempt fuel : ℕ) :
    pollAux resps tmsg attempt (fuel + 1) =
      match resps attempt with
      | PollResp.doneOk payload => (PollOutcome.ok payload, [])
      | PollResp.doneErr m =>
        if fuel = 0 then (PollOutcome.err ("Operation error: " ++ m), [])
        else ((pollAux resps tmsg (attempt + 1) fuel).1,
              transientBackoffMs :: (pollAux resps tmsg (attempt + 1) fuel).2)
      | PollResp.fail m =>
        if fuel = 0 then (PollOutcome.err m, [])
        else ((pollAux resps tmsg (attempt + 1) fuel).1,
              transientBackoffMs :: (pollAux resps tmsg (attempt + 1) fuel).2)
      | PollResp.running =>
        ((pollAux resps tmsg (attempt + 1) fuel).1,
         pollIntervalMs :: (pollAux resps tmsg (attempt + 1) fuel).2) := rfl

theorem pollAux_reach_done (resps : ℕ → PollResp) (tmsg : String)
    (payload : Option (List SpeechResult)) :
    ∀ (k a fuel : ℕ), k < fuel →
      (∀ i, i < k → transientOrRunning (resps (a + i))) →
      resps (a + k) = PollResp.doneOk payload →
      pollAux resps tmsg a fuel =
        (PollOutcome.ok payload, (List.range k).map (fun i => pollWait (resps (a + i)))) := by
  intro k
  induction k with
  | zero =>
    intro a fuel hf _ hdone
    obtain ⟨f, rfl⟩ : ∃ f, fuel = f + 1 := ⟨fuel - 1, by omega⟩
    rw [Nat.add_zero] at hdone
    simp [pollAux, hdone]
  | succ k ih =>
    intro a fuel hf hbefore hdone
    obtain ⟨f, rfl⟩ : ∃ f, fuel = f + 1 := ⟨fuel - 1, by omega⟩
    have hf0 : f ≠ 0 := by omega
    have h0 : transientOrRunning (resps a) := by
      have := hbefore 0 (by omega)
      simpa using this
    have hrest : pollAux resps tmsg (a + 1) f =
        (PollOutcome.ok payload, (List.range k).map (fun i => pollWait (resps (a + 1 + i)))) := by
      apply ih (a + 1) f (by omega)
      · intro i hi
        have hb := hbefore (i + 1) (by omega)
        have hx : a + (i + 1) = a + 1 + i := by omega
        rwa [hx] at hb
      · have hx : a + (k + 1) = a + 1 + k := by omega
        rwa [hx] at hdone
    have hlist : (List.range (k + 1)).map (fun i => pollWait (resps (a + i))) =
        pollWait (resps a) :: (List.range k).map (fun i => pollWait (resps (a + 1 + i))) := by
      rw [List.range_succ_eq_map, List.map_cons, List.map_map]
      have hfun : ((fun i => pollWait (resps (a + i))) ∘ (· + 1)) =
          (fun i => pollWait (resps (a + 1 + i))) := by
        funext i
        have hx : a + (i + 1) = a + 1 + i := by omega
        simp [Function.comp, hx]
      simp [hfun]
    rcases h0 with hr | ⟨m, hr⟩
    · rw [hlist, show pollWait (resps a) = pollIntervalMs by rw [hr]; rfl, pollAux_step, hr]
      simp [hrest]
    · rw [hlist, show pollWait (resps a) = transientBackoffMs by rw [hr]; rfl, pollAux_step, hr]
      simp [hf0, hrest]

theorem pollAux_final_fail (resps : ℕ → PollResp) (tmsg : String) :
    ∀ (j a : ℕ) (m : String),
      (∀ i, i < j → transientOrRunning (resps (a + i))) →
      resps (a + j) = PollResp.fail m →
      (pollAux resps tmsg a (j + 1)).1 = PollOutcome.err m := by
  intro j
  induction j with
  | zero =>
    intro a m _ hfail
    rw [Nat.add_zero] at hfail
    simp [pollAux, hfail]
  | succ j ih =>
    intro a m hbefore hfail
    have h0 : transientOrRunning (resps a) := by
      have := hbefore 0 (by omega)
      simpa using this
    have hrest : (pollAux resps tmsg (a + 1) (j + 1)).1 = PollOutcome.err m := by
      apply ih (a + 1) m
      · intro i hi
        have hb := hbefore (i + 1) (by omega)
        have hx : a + (i + 1) = a + 1 + i := by omega
        rwa [hx] at hb
      · have hx : a + (j + 1) = a + 1 + j := by omega
        rwa [hx] at hfail
    rcases h0 with hr | ⟨m2, hr⟩
    · rw [pollAux_step, hr]
      simpa using hrest
    · rw [pollAux_step, hr]
      simp [hrest]

theorem pollAux_all_running (resps : ℕ → PollResp) (tmsg : String) :
    ∀ (fuel a : ℕ), (∀ i, i < fuel → resps (a + i) = PollResp.running) →
      pollAux resps tmsg a fuel =
        (PollOutcome.timeout tmsg, List.replicate fuel pollIntervalMs) := by
  intro fuel
  induction fuel with
  | zero => intro a _; simp [pollAux]
  | succ f ih =>
    intro a h
    have h0 : resps a = PollResp.running := by
      have := h 0 (by omega)
      simpa using this
    have hrest := ih (a + 1) (fun i hi => by
      have hb := h (i + 1) (by omega)
      have hx : a + (i + 1) = a + 1 + i := by omega
      rwa [hx] at hb)
    rw [pollAux_step, h0]
    simp [hrest, List.replicate_succ]

theorem foldlDelete_spec (del : String → Option String) (fmt : String → String → String) :
    ∀ (names : List String) (acc : List String × List String),
      names.foldl (fun acc n =>
        match del n with
        | none => (acc.1 ++ [n], acc.2)
        | some m => (acc.1, acc.2 ++ [fmt n m])) acc =
      (acc.1 ++ names.filter (fun n => (del n).isNone),
       acc.2 ++ (names.filter (fun n => (del n).isSome)).map
         (fun n => fmt n ((del n).getD ""))) := by
  intro names
  induction names with
  | nil => intro acc; simp
  | cons n t ih =>
    intro acc
    cases hd : del n with
    | none => simp [hd, ih, List.filter_cons]
    | some m => simp [hd, ih, List.filter_cons]

theorem cleanupCloudLoop_spec (del : String → Option String) (names : List String) :
    cleanupCloudLoop del names =
      (names.filter (fun n => (del n).isNone),
       (names.filter (fun n => (del n).isSome)).map
         (fun n => "Failed to delete " ++ n ++ ": " ++ (del n).getD "")) := by
  have h := foldlDelete_spec del (fun n m => "Failed to delete " ++ n ++ ": " ++ m) names ([], [])
  simpa [cleanupCloudLoop] using h

theorem cleanupDriveLoop_spec (del : String → Option String) (ids : List String) :
    cleanupDriveLoop del ids =
      (ids.filter (fun i => (del i).isNone),
       (ids.filter (fun i => (del i).isSome)).map
         (fun i => "Failed to delete drive file " ++ i ++ ": " ++ (del i).getD "")) := by
  have h := foldlDelete_spec del (fun i m => "Failed to delete drive file " ++ i ++ ": " ++ m)
    ids ([], [])
  simpa [cleanupDriveLoop] using h

/-! ### Claims -/

/-- Claim C1 (corrected): the allow-list property fails for `buildSpeechRequest`,
whose trailing `...config` spread copies every caller-supplied field — including
provider-level fields outside the documented config — into the provider payload;
the allow-list holds only for the chunk builder `buildChunkSpeechRequest`, whose
payload never contains caller-supplied extra fields. -/
theorem claimC1 (audioData : String) (c : RecognitionConfig) :
    (buildChunkSpeechRequest audioData c).config.extras = [] ∧
    (buildSpeechRequest audioData c).config.extras = c.extras :=
  ⟨rfl, rfl⟩

/-- Claim C1 counterexample: a caller config carrying the undocumented
provider-level field `pickFirstChannel` reaches the payload built by
`buildSpeechRequest` unchanged, so the output is not restricted to an
allow-list of overridable fields. -/
theorem claimC1_counterexample :
    (buildSpeechRequest "QUJD"
        { encoding := some "MP3", languageCode := some "ja-JP",
          extras := [("pickFirstChannel", "true")] }).config.extras =
      [("pickFirstChannel", "true")] := rfl

/-- Claim C2 (corrected): what the validators actually check. The chunk
validator collects one error string per failed check — presence of `audioData`,
`chunkIndex`, `languageCode` and `encoding`, membership of a present encoding in
the supported set, and the sample-rate range for a present non-zero rate — and a
config invalid only in the sample rate yields exactly the sample-rate error.
But no validator reads the diarization fields, and the direct handlers'
`validateInput` checks presence only. -/
theorem claimC2 :
    (∀ (a : Option String) (i : Option ℤ) (c : RecognitionConfig),
       (validateChunkInput a i (some c)).valid = true ↔
         (strTruthy a = true ∧ i.isSome = true ∧ chunkConfigOk c)) ∧
    (∀ (a : Option String) (i : Option ℤ) (c : RecognitionConfig)
       (d : Option CallerDiarization) (b : Bool),
       validateChunkInput a i (some { c with diarizationConfig := d, enableDiarization := b }) =
         validateChunkInput a i (some c)) ∧
    (∀ (a : Option String) (i : Option ℤ) (c : RecognitionConfig) (rate : ℤ),
       strTruthy a = true → i.isSome = true →
       strTruthy c.languageCode = true → strTruthy c.encoding = true →
       c.encoding.getD "" ∈ supportedEncodings →
       c.sampleRateHertz = some rate → rate ≠ 0 → (rate < 8000 ∨ rate > 48000) →
       (validateChunkInput a i (some c)).errors =
         ["sampleRateHertz must be between 8000 and 48000"] ∧
       (validateChunkInput a i (some c)).valid = false) ∧
    (∀ (a : Option String) (c : RecognitionConfig),
       (validateInput a (some c)).valid = true ↔
         (strTruthy a = true ∧ strTruthy c.languageCode = true ∧ strTruthy c.encoding = true)) :=
  ⟨validateChunkInput_valid_iff, validateChunkInput_ignores_diarization,
   fun a i c rate h1 h2 h3 h4 h5 h6 h7 h8 =>
     validateChunkInput_rate_only a i c rate h1 h2 h3 h4 h5 h6 h7 h8,
   validateInput_valid_iff⟩

/-- Claim C2 witness: a config invalid only in the sample rate (7000 Hz) gets
exactly the sample-rate error and `valid = false`. -/
theorem claimC2_witness :
    (validateChunkInput (some "QUJD") (some 0) (some rateBadConfig)).errors =
      ["sampleRateHertz must be between 8000 and 48000"] ∧
    (validateChunkInput (some "QUJD") (some 0) (some rateBadConfig)).valid = false :=
  claimC2.2.2.1 (some "QUJD") (some 0) rateBadConfig 7000 (by decide) rfl
    (by decide) (by decide) (by decide) rfl (by decide) (by decide)

/-- Claim C2 counterexample: a chunk config requesting diarization with min
speaker count 5 above max 2 is nevertheless reported `valid = true` with no
errors — the claimed min/max speaker check does not exist. -/
theorem claimC2_counterexample :
    (validateChunkInput (some "QUJD") (some 0) (some diarBadConfig)).valid = true ∧
    (validateChunkInput (some "QUJD") (some 0) (some diarBadConfig)).errors = [] := by
  constructor <;> decide

/-- Claim C3 (confirmed): the transient back-off is exactly twice the poll
interval; whenever the operation reaches a successful terminal status at
attempt `k < maxAttempts` after only transient failures and running reports,
the poller returns the result, having slept the doubled interval after each
transient failure and the normal interval after each running report; and when
transient failures persist up to the final allowed attempt, the final failure
propagates as the error outcome. -/
theorem claimC3 :
    transientBackoffMs = 2 * pollIntervalMs ∧
    (∀ (resps : ℕ → PollResp) (tmsg : String) (maxAttempts k : ℕ)
       (payload : Option (List SpeechResult)),
       k < maxAttempts →
       (∀ i, i < k → transientOrRunning (resps i)) →
       resps k = PollResp.doneOk payload →
       pollAux resps tmsg 0 maxAttempts =
         (PollOutcome.ok payload, (List.range k).map (fun i => pollWait (resps i)))) ∧
    (∀ (resps : ℕ → PollResp) (tmsg : String) (maxAttempts : ℕ) (m : String),
       0 < maxAttempts →
       (∀ i, i < maxAttempts - 1 → transientOrRunning (resps i)) →
       resps (maxAttempts - 1) = PollResp.fail m →
       (pollAux resps tmsg 0 maxAttempts).1 = PollOutcome.err m) := by
  refine ⟨rfl, ?_, ?_⟩
  · intro resps tmsg maxAttempts k payload hk hbefore hdone
    have h := pollAux_reach_done resps tmsg payload k 0 maxAttempts hk
      (fun i hi => by simpa using hbefore i hi) (by simpa using hdone)
    simpa using h
  · intro resps tmsg maxAttempts m hpos hbefore hfail
    obtain ⟨j, rfl⟩ : ∃ j, maxAttempts = j + 1 := ⟨maxAttempts - 1, by omega⟩
    have h := pollAux_final_fail resps tmsg j 0 m
      (fun i hi => by simpa using hbefore i (by simpa using hi))
      (by simpa using hfail)
    simpa using h

/-- Claim C3 witness: a run with two transient failures then success returns the
result with two doubled-interval sleeps; a run of persistent failures through
the final attempt ends in the error outcome. -/
theorem claimC3_witness :
    pollAux recoverResps "Operation timeout" 0 5 =
      (PollOutcome.ok none, [transientBackoffMs, transientBackoffMs]) ∧
    (pollAux persistentFailResps "Operation timeout" 0 5).1 =
      PollOutcome.err "ECONNRESET" := by
  constructor
  · have h := claimC3.2.1 recoverResps "Operation timeout" 5 2 none (by omega)
      (fun i hi => Or.inr ⟨"ECONNRESET", by simp [recoverResps, hi]⟩)
      (by simp [recoverResps])
    rw [h]
    decide
  · exact claimC3.2.2 persistentFailResps "Operation timeout" 5 "ECONNRESET"
      (by omega) (fun i _ => Or.inr ⟨"ECONNRESET", rfl⟩) rfl

/-- Claim C4 (confirmed): the large-file poller's bound of 120 attempts equals
its 600 s timeout divided by the 5 s poll interval, and on statuses that never
report done (always RUNNING) it stops with the distinct timeout outcome after
exactly that budget of sleeps; the chunked-path poller `pollOperation` likewise
stops with its timeout outcome after its 60-attempt budget. -/
theorem claimC4 (resps : ℕ → PollResp)
    (h : ∀ i, i < lroMaxAttempts → resps i = PollResp.running) :
    lroMaxAttempts = 120 ∧ pollIntervalMs = 5000 ∧
    lroMaxAttempts = 600 * 1000 / pollIntervalMs ∧
    lroMaxAttempts * pollIntervalMs = 600 * 1000 ∧
    pollLongRunningOperation resps =
      (PollOutcome.timeout "Long running operation timeout (10 minutes)",
       List.replicate lroMaxAttempts pollIntervalMs) ∧
    (∀ (resps2 : ℕ → PollResp),
       (∀ i, i < chunkPollMaxAttempts → resps2 i = PollResp.running) →
       pollOperation resps2 =
         (PollOutcome.timeout "Operation timeout",
          List.replicate chunkPollMaxAttempts pollIntervalMs)) := by
  refine ⟨rfl, rfl, by decide, by decide, ?_, ?_⟩
  · have hall := pollAux_all_running resps "Long running operation timeout (10 minutes)"
      lroMaxAttempts 0 (fun i hi => by simpa using h i hi)
    simpa [pollLongRunningOperation] using hall
  · intro resps2 h2
    have hall := pollAux_all_running resps2 "Operation timeout"
      chunkPollMaxAttempts 0 (fun i hi => by simpa using h2 i hi)
    simpa [pollOperation] using hall

/-- Claim C4 witness: the always-RUNNING provider exhausts the budget. -/
theorem claimC4_witness :
    lroMaxAttempts = 120 ∧ pollIntervalMs = 5000 ∧
    lroMaxAttempts = 600 * 1000 / pollIntervalMs ∧
    lroMaxAttempts * pollIntervalMs = 600 * 1000 ∧
    pollLongRunningOperation (fun _ => PollResp.running) =
      (PollOutcome.timeout "Long running operation timeout (10 minutes)",
       List.replicate lroMaxAttempts pollIntervalMs) ∧
    (∀ (resps2 : ℕ → PollResp),
       (∀ i, i < chunkPollMaxAttempts → resps2 i = PollResp.running) →
       pollOperation resps2 =
         (PollOutcome.timeout "Operation timeout",
          List.replicate chunkPollMaxAttempts pollIntervalMs)) :=
  claimC4 (fun _ => PollResp.running) (fun _ _ => rfl)

/-- Claim C5 (corrected): in both direct handlers the base64 estimate
`audioSizeInMB` (encodedLength · 3/4, scaled to MB) gates the oversize check —
at or below the limit the request proceeds to the recognition call, above it a
413 response names the handler's limit and the provider is not contacted. The
large-audio handler (limit 1000 MB) also suggests the large-file mode; the
service-account handler (limit 15 MB) sends no suggestion, contrary to the
claim. -/
theorem claimC5 (a : String) (c : RecognitionConfig) (p : ProviderReply)
    (hv : (validateInput (some a) (some c)).valid = true) :
    (audioSizeInMB a.length ≤ 1000 →
       (apiDirectHandler (some a) (some c) p).1 = [Collab.credential, Collab.recognition]) ∧
    (1000 < audioSizeInMB a.length →
       apiDirectHandler (some a) (some c) p =
         ([Collab.credential],
          { status := 413, error := some "Audio file too large for direct processing",
            maxSize := some "1000MB", suggestion := some "Use large file processing mode" })) ∧
    (audioSizeInMB a.length ≤ 15 →
       (saDirectHandler (some a) (some c) p).1 = [Collab.credential, Collab.recognition]) ∧
    (15 < audioSizeInMB a.length →
       saDirectHandler (some a) (some c) p =
         ([Collab.credential],
          { status := 413, error := some "Audio file too large",
            maxSize := some "15MB" })) := by
  refine ⟨?_, ?_, ?_, ?_⟩
  · intro hsz
    have hsz' : ¬(audioSizeInMB a.length > 1000) := not_lt.mpr hsz
    cases p with
    | httpError st m => simp [apiDirectHandler, hv, hsz']
    | ok d =>
      by_cases he : isEmptyResults d.results = true <;>
        simp [apiDirectHandler, hv, hsz', he]
  · intro hsz
    simp [apiDirectHandler, hv, hsz]
  · intro hsz
    have hsz' : ¬(audioSizeInMB a.length > 15) := not_lt.mpr hsz
    cases p with
    | httpError st m => simp [saDirectHandler, hv, hsz']
    | ok d =>
      by_cases he : isEmptyResults d.results = true <;>
        simp [saDirectHandler, hv, hsz', he]
  · intro hsz
    simp [saDirectHandler, hv, hsz]

/-- Claim C5 witness: a small valid payload proceeds to the recognition call in
both direct handlers. -/
theorem claimC5_witness :
    (apiDirectHandler (some "QUJD") (some validSmallConfig)
        (ProviderReply.ok emptySpeechData)).1 = [Collab.credential, Collab.recognition] ∧
    (saDirectHandler (some "QUJD") (some validSmallConfig)
        (ProviderReply.ok emptySpeechData)).1 = [Collab.credential, Collab.recognition] := by
  have h := claimC5 "QUJD" validSmallConfig (ProviderReply.ok emptySpeechData) (by decide)
  have hlen : ("QUJD" : String).length = 4 := rfl
  refine ⟨h.1 ?_, h.2.2.1 ?_⟩ <;> rw [hlen] <;> norm_num [audioSizeInMB]

/-- Claim C5 counterexample: a payload whose estimate exceeds the
service-account handler's 15 MB limit is rejected with a 413 naming the limit
but carrying no suggestion of an alternative processing mode. -/
theorem claimC5_counterexample :
    (saDirectHandler (some oversizedAudio) (some validSmallConfig)
        (ProviderReply.ok emptySpeechData)).2.status = 413 ∧
    (saDirectHandler (some oversizedAudio) (some validSmallConfig)
        (ProviderReply.ok emptySpeechData)).2.maxSize = some "15MB" ∧
    (saDirectHandler (some oversizedAudio) (some validSmallConfig)
        (ProviderReply.ok emptySpeechData)).2.suggestion = none := by
  have hlen : oversizedAudio.length = 20971521 := by
    show (List.replicate 20971521 'A').length = 20971521
    exact List.length_replicate ..
  have htr : strTruthy (some oversizedAudio) = true := by
    simp [strTruthy, hlen]
  have hv : (validateInput (some oversizedAudio) (some validSmallConfig)).valid = true := by
    rw [validateInput_valid_iff]
    exact ⟨htr, by decide, by decide⟩
  have hsz : audioSizeInMB oversizedAudio.length > 15 := by
    rw [hlen]
    norm_num [audioSizeInMB]
  have hres : saDirectHandler (some oversizedAudio) (some validSmallConfig)
      (ProviderReply.ok emptySpeechData) =
      ([Collab.credential],
       { status := 413, error := some "Audio file too large", maxSize := some "15MB" }) := by
    simp [saDirectHandler, hv, hsz]
  rw [hres]
  exact ⟨rfl, rfl, rfl⟩

/-- Claim C6 (corrected): the dedicated chunk processor's reported confidence
equals the arithmetic mean of the top alternative's confidence over the chunk's
results and is 0 when there are none; but the api handler's chunk path reports
the first result's top-alternative confidence instead of the mean. -/
theorem claimC6 (rs : List SpeechResult) (h : rs ≠ []) :
    chunkConfidence (some rs) = meanTopConfidence rs ∧
    chunkConfidence (some []) = 0 ∧
    chunkConfidence none = 0 ∧
    (∀ (r : SpeechResult) (rest : List SpeechResult),
       apiChunkConfidence (some (r :: rest)) = r.alternatives.headI.confidence) ∧
    apiChunkConfidence none = 0 := by
  refine ⟨?_, by simp [chunkConfidence], rfl, fun r rest => rfl, rfl⟩
  have hlen : rs.length > 0 := List.length_pos.mpr h
  simp only [chunkConfidence, if_pos hlen]
  rw [foldl_add_map_sum]
  simp [meanTopConfidence]

/-- Claim C6 witness: the mean equality evaluated on a two-result chunk. -/
theorem claimC6_witness :
    chunkConfidence (some twoChunkResults) = meanTopConfidence twoChunkResults ∧
    chunkConfidence (some []) = 0 ∧
    chunkConfidence none = 0 ∧
    (∀ (r : SpeechResult) (rest : List SpeechResult),
       apiChunkConfidence (some (r :: rest)) = r.alternatives.headI.confidence) ∧
    apiChunkConfidence none = 0 :=
  claimC6 twoChunkResults (by simp [twoChunkResults])

/-- Claim C6 counterexample: on a chunk with top confidences 0.4 and 0.8 the api
handler's chunk path reports 0.4, not the mean 0.6, so its reported confidence
is not the arithmetic mean over all results. -/
theorem claimC6_counterexample :
    apiChunkConfidence (some twoChunkResults) = 2 / 5 ∧
    meanTopConfidence twoChunkResults = 3 / 5 ∧
    apiChunkConfidence (some twoChunkResults) ≠ meanTopConfidence twoChunkResults := by
  have h1 : apiChunkConfidence (some twoChunkResults) = 2 / 5 := rfl
  have h2 : meanTopConfidence twoChunkResults = 3 / 5 := by
    norm_num [meanTopConfidence, twoChunkResults]
  refine ⟨h1, h2, ?_⟩
  rw [h1, h2]
  norm_num

/-- Claim C7 (corrected): a request failing validation is answered with the 400
validation error and never reaches the recognition provider or object storage,
and the chunk handler contacts no collaborator at all before answering; but the
api and service-account handlers have already called the credential provider
(token acquisition precedes validation), contrary to the claim that no
collaborator call is made. -/
theorem claimC7
    (a1 : Option String) (c1 : Option RecognitionConfig) (p1 : ProviderReply)
    (a2 : Option String) (c2 : Option RecognitionConfig) (p2 : ProviderReply)
    (a3 : Option String) (i3 : Option ℤ) (c3 : Option RecognitionConfig) (p3 : ProviderReply)
    (h1 : (validateInput a1 c1).valid = false)
    (h2 : (validateInput a2 c2).valid = false)
    (h3 : (validateChunkInput a3 i3 c3).valid = false) :
    apiDirectHandler a1 c1 p1 =
      ([Collab.credential],
       { status := 400, error := some "Invalid input",
         details := (validateInput a1 c1).errors }) ∧
    saDirectHandler a2 c2 p2 =
      ([Collab.credential],
       { status := 400, error := some "Invalid input",
         details := (validateInput a2 c2).errors }) ∧
    chunkHandler a3 i3 c3 p3 =
      ([], { status := 400, error := some "Invalid input",
             details := (validateChunkInput a3 i3 c3).errors }) ∧
    Collab.recognition ∉ (apiDirectHandler a1 c1 p1).1 ∧
    Collab.storage ∉ (apiDirectHandler a1 c1 p1).1 ∧
    Collab.recognition ∉ (saDirectHandler a2 c2 p2).1 ∧
    Collab.recognition ∉ (chunkHandler a3 i3 c3 p3).1 := by
  have e1 : apiDirectHandler a1 c1 p1 =
      ([Collab.credential],
       { status := 400, error := some "Invalid input",
         details := (validateInput a1 c1).errors }) := by
    simp [apiDirectHandler, h1]
  have e2 : saDirectHandler a2 c2 p2 =
      ([Collab.credential],
       { status := 400, error := some "Invalid input",
         details := (validateInput a2 c2).errors }) := by
    simp [saDirectHandler, h2]
  have e3 : chunkHandler a3 i3 c3 p3 =
      ([], { status := 400, error := some "Invalid input",
             details := (validateChunkInput a3 i3 c3).errors }) := by
    simp [chunkHandler, h3]
  refine ⟨e1, e2, e3, by simp [e1], by simp [e1], by simp [e2], by simp [e3]⟩

/-- Claim C7 witness: an empty body fails validation and is answered 400 after
only the credential call. -/
theorem claimC7_witness :
    apiDirectHandler none none (ProviderReply.ok emptySpeechData) =
      ([Collab.credential],
       { status := 400, error := some "Invalid input",
         details := (validateInput none none).errors }) :=
  (claimC7 none none (ProviderReply.ok emptySpeechData)
    none none (ProviderReply.ok emptySpeechData)
    none none none (ProviderReply.ok emptySpeechData)
    (by decide) (by decide) (by decide)).1

/-- Claim C7 counterexample: a request failing validation has nevertheless
caused a credential-provider call in the api handler, so it is false that no
collaborator is invoked before the validation error is returned. -/
theorem claimC7_counterexample :
    (validateInput none none).valid = false ∧
    Collab.credential ∈ (apiDirectHandler none none (ProviderReply.ok emptySpeechData)).1 ∧
    (apiDirectHandler none none (ProviderReply.ok emptySpeechData)).2.status = 400 := by
  refine ⟨by decide, by decide, by decide⟩

/-- Claim C8 (corrected): both chunk paths use the short-form model
`latest_short`. The dedicated chunk endpoint's builder
`buildChunkSpeechRequest` enables word-level confidence, leaves diarization off
unless the caller explicitly enables it, and when enabled bounds the speakers
to min 1 / max 2; the api handler's `processAudioChunk` path, however, never
enables word confidence and never emits a diarization config, even when the
caller enables diarization. -/
theorem claimC8 (audioData : String) (c : RecognitionConfig) :
    (buildChunkSpeechRequest audioData c).config.model = "latest_short" ∧
    (buildChunkSpeechRequest audioData c).config.enableWordConfidence = some true ∧
    (c.enableDiarization = false →
       (buildChunkSpeechRequest audioData c).config.diarizationConfig = none) ∧
    (c.enableDiarization = true →
       (buildChunkSpeechRequest audioData c).config.diarizationConfig =
         some { enableSpeakerDiarization := true, minSpeakerCount := 1,
                maxSpeakerCount := 2 }) ∧
    (processAudioChunkRequest audioData c).config.model = "latest_short" ∧
    (processAudioChunkRequest audioData c).config.enableWordConfidence = none ∧
    (processAudioChunkRequest audioData c).config.diarizationConfig = none := by
  refine ⟨rfl, rfl, ?_, ?_, rfl, rfl, rfl⟩ <;> intro h <;> simp [buildChunkSpeechRequest, h]

/-- Claim C8 witness: in the dedicated chunk builder, diarization stays off by
default and, when the caller enables it (even asking for 5 speakers), is
emitted with the 1..2 bound. -/
theorem claimC8_witness :
    (buildChunkSpeechRequest "QUJD" validSmallConfig).config.diarizationConfig = none ∧
    (buildChunkSpeechRequest "QUJD" diarBadConfig).config.diarizationConfig =
      some { enableSpeakerDiarization := true, minSpeakerCount := 1,
             maxSpeakerCount := 2 } :=
  ⟨(claimC8 "QUJD" validSmallConfig).2.2.1 rfl,
   (claimC8 "QUJD" diarBadConfig).2.2.2.1 rfl⟩

/-- Claim C8 counterexample: a chunk request processed by the api handler's
`processAudioChunk` path with diarization explicitly enabled by the caller
still carries no word-level confidence flag and no diarization config at all —
so on that path word confidence is not enabled and the speaker bound is never
tightened to 2, falsifying the claim for every chunk request. -/
theorem claimC8_counterexample :
    diarBadConfig.enableDiarization = true ∧
    (processAudioChunkRequest "QUJD" diarBadConfig).config.enableWordConfidence = none ∧
    (processAudioChunkRequest "QUJD" diarBadConfig).config.diarizationConfig = none :=
  ⟨rfl, rfl, rfl⟩

/-- Claim C9 (confirmed): the cleanup endpoint always answers 200 with
`success: true`; per-object delete failures only append one message each to the
report's error list, and the successfully deleted objects are still listed; the
temp-file cleanup of the drive path swallows its delete error entirely, so the
caller's transcription result is unaffected. -/
theorem claimC9 (objectNames driveFileIds : Option (List String))
    (storageDelete driveDelete : String → Option String) (d : Except String Unit) :
    (cleanupHandler objectNames driveFileIds storageDelete driveDelete).1 = 200 ∧
    (cleanupHandler objectNames driveFileIds storageDelete driveDelete).2.1 = true ∧
    (cleanupHandler objectNames driveFileIds storageDelete driveDelete).2.2.errors =
      ((objectNames.getD []).filter (fun n => (storageDelete n).isSome)).map
        (fun n => "Failed to delete " ++ n ++ ": " ++ (storageDelete n).getD "") ++
      ((driveFileIds.getD []).filter (fun i => (driveDelete i).isSome)).map
        (fun i => "Failed to delete drive file " ++ i ++ ": " ++ (driveDelete i).getD "") ∧
    (cleanupHandler objectNames driveFileIds storageDelete driveDelete).2.2.deletedCloudStorage =
      (objectNames.getD []).filter (fun n => (storageDelete n).isNone) ∧
    cleanupTempFile d = Except.ok () := by
  refine ⟨rfl, rfl, ?_, ?_, by cases d <;> rfl⟩
  · simp [cleanupHandler, cleanupCloudLoop_spec, cleanupDriveLoop_spec]
  · simp [cleanupHandler, cleanupCloudLoop_spec]

/-- Claim C10 (confirmed): on a provider response with zero results, the
large-audio handler's direct path answers 200 with `success: true`, an empty
result list and the no-speech message, while the old API-key handler answers
400 with its extraction-failure error for the same provider response. -/
theorem claimC10 (a : String) (c : RecognitionConfig) (k : String)
    (results0 : Option (List SpeechResult)) (billed : Option String)
    (hv : (validateInput (some a) (some c)).valid = true)
    (hsz : audioSizeInMB a.length ≤ 1000)
    (hk : strTruthy (some k) = true)
    (hempty : isEmptyResults results0 = true) :
    (apiDirectHandler (some a) (some c)
        (ProviderReply.ok { results := results0, totalBilledTime := billed })).2 =
      { status := 200, success := some true, results := some [],
        message := some "No speech detected in audio",
        processingMode := some "direct" } ∧
    (oldDirectHandler (some a) (some c) (some k)
        (ProviderReply.ok { results := results0, totalBilledTime := billed })).status = 400 ∧
    (oldDirectHandler (some a) (some c) (some k)
        (ProviderReply.ok { results := results0, totalBilledTime := billed })).error =
      some "音声からテキストを抽出できませんでした" := by
  have hsz' : ¬(audioSizeInMB a.length > 1000) := not_lt.mpr hsz
  have ha : strTruthy (some a) = true := ((validateInput_valid_iff (some a) c).mp hv).1
  have hold : oldDirectHandler (some a) (some c) (some k)
      (ProviderReply.ok { results := results0, totalBilledTime := billed }) =
      { status := 400, error := some "音声からテキストを抽出できませんでした" } := by
    simp [oldDirectHandler, ha, hk, hempty]
  refine ⟨?_, by rw [hold], by rw [hold]⟩
  simp [apiDirectHandler, hv, hsz', hempty]

/-- Claim C10 witness: evaluated on a small valid request and an empty provider
response. -/
theorem claimC10_witness :
    (apiDirectHandler (some "QUJD") (some validSmallConfig)
        (ProviderReply.ok emptySpeechData)).2 =
      { status := 200, success := some true, results := some [],
        message := some "No speech detected in audio",
        processingMode := some "direct" } ∧
    (oldDirectHandler (some "QUJD") (some validSmallConfig) (some "key")
        (ProviderReply.ok emptySpeechData)).status = 400 ∧
    (oldDirectHandler (some "QUJD") (some validSmallConfig) (some "key")
        (ProviderReply.ok emptySpeechData)).error =
      some "音声からテキストを抽出できませんでした" := by
  have hlen : ("QUJD" : String).length = 4 := rfl
  exact claimC10 "QUJD" validSmallConfig "key" none none (by decide)
    (by rw [hlen]; norm_num [audioSizeInMB]) (by decide) (by decide)

end STT
